import Mathlib

/-!
Verification development for the ProductiveMCP core: the rate limiter
(`src/utils/rate-limiter.ts`), the error classifier and environment
validation (`src/utils/errors.ts`), the gateway request pipeline
(`src/client.ts`), and the startup sequence of the server entry point.

Timestamps are modelled as integers (milliseconds, as returned by
`Date.now()`); the clock is deterministic: after a timed sleep of `d`
milliseconds started at time `now`, `Date.now()` reads `now + d`.
Stateful methods are embedded in state-passing style: each method takes the
current instance state (and the current time where the method reads the
clock) and returns its result together with the successor state.
-/

namespace ProductiveMCP

/-- Modelled from the spec: the file `constants.ts` defining
`RATE_LIMIT_REQUESTS` is not among the provided sources; the spec fixes the
quota Q = 100 requests (corroborated by the hard-coded 429 message
"Rate limit exceeded (100 requests/10s)" in `errors.ts`). -/
def RATE_LIMIT_REQUESTS : Nat := 100

/-- Modelled from the spec: the file `constants.ts` defining
`RATE_LIMIT_WINDOW_MS` is not among the provided sources; the spec fixes the
window W = 10000 ms (corroborated by the hard-coded 429 message
"Rate limit exceeded (100 requests/10s)" in `errors.ts`). -/
def RATE_LIMIT_WINDOW_MS : Int := 10000

/-- The mutable instance state of `RateLimiter`:
`private requestCount: number = 0` and `private windowStart: number`. -/
structure RateState where
  requestCount : Nat
  windowStart : Int
deriving Repr, DecidableEq

/-- Fresh `RateLimiter` state: `requestCount = 0`, `windowStart = Date.now()`
at construction time `t`. -/
def RateState.init (t : Int) : RateState := ⟨0, t⟩

/-- `RateLimiter.waitForRateLimit()`, embedded with the current clock value
`now`. Returns the number of milliseconds the caller is suspended (0 when the
method returns immediately) together with the successor state. The branch
that sleeps re-reads `Date.now()` after the sleep, which under the
deterministic clock is `now + waitTime`. -/
def waitForRateLimit (now : Int) (s : RateState) : Int × RateState :=
  let elapsed := now - s.windowStart
  if elapsed ≥ RATE_LIMIT_WINDOW_MS then
    (0, ⟨0, now⟩)
  else if s.requestCount ≥ RATE_LIMIT_REQUESTS then
    let waitTime := RATE_LIMIT_WINDOW_MS - elapsed
    (waitTime, ⟨0, now + waitTime⟩)
  else
    (0, s)

/-- `RateLimiter.recordRequest()`: `this.requestCount++`. -/
def recordRequest (s : RateState) : RateState :=
  ⟨s.requestCount + 1, s.windowStart⟩

/-- The record returned by `RateLimiter.getStatus()`. -/
structure RateStatus where
  count : Nat
  limit : Nat
  windowMs : Int
  remaining : Int
deriving Repr, DecidableEq

/-- `RateLimiter.getStatus()`, embedded with the current clock value `now`.
The method only reads the instance fields, so the successor state is the
input state; `remaining` mirrors `Math.max(0, RATE_LIMIT_REQUESTS - this.requestCount)`. -/
def getStatus (now : Int) (s : RateState) : RateStatus × RateState :=
  let elapsed := now - s.windowStart
  if elapsed ≥ RATE_LIMIT_WINDOW_MS then
    (⟨0, RATE_LIMIT_REQUESTS, RATE_LIMIT_WINDOW_MS, (RATE_LIMIT_REQUESTS : Int)⟩, s)
  else
    (⟨s.requestCount, RATE_LIMIT_REQUESTS, RATE_LIMIT_WINDOW_MS,
      max 0 ((RATE_LIMIT_REQUESTS : Int) - (s.requestCount : Int))⟩, s)

/-- One sequential gateway call as seen by the rate limiter: it runs
`waitForRateLimit()` at issue time `now` and then `recordRequest()`
(the successful-dispatch path of `ProductiveClient.request`). Returns the
delay incurred and the successor state. -/
def callStep (now : Int) (s : RateState) : Int × RateState :=
  let r := waitForRateLimit now s
  (r.1, recordRequest r.2)

/-- A sequential trace of gateway calls at the given issue times: the list of
delays incurred by each call, and the final rate-limiter state. -/
def runCalls : List Int → RateState → List Int × RateState
  | [], s => ([], s)
  | t :: ts, s =>
    let r := callStep t s
    let rest := runCalls ts r.2
    (r.1 :: rest.1, rest.2)

lemma callStep_in_window (t start : Int) (c : Nat)
    (ht : t < start + RATE_LIMIT_WINDOW_MS) (hc : c < RATE_LIMIT_REQUESTS) :
    callStep t ⟨c, start⟩ = (0, ⟨c + 1, start⟩) := by
  unfold callStep waitForRateLimit recordRequest
  simp only
  rw [if_neg (by omega), if_neg (by omega)]

lemma runCalls_in_window (ts : List Int) (start : Int) (c : Nat)
    (hlen : c + ts.length ≤ RATE_LIMIT_REQUESTS)
    (hts : ∀ t ∈ ts, start ≤ t ∧ t < start + RATE_LIMIT_WINDOW_MS) :
    runCalls ts ⟨c, start⟩ = (List.replicate ts.length 0, ⟨c + ts.length, start⟩) := by
  induction ts generalizing c with
  | nil => simp [runCalls]
  | cons t ts ih =>
    have hmem := hts t (List.mem_cons_self t ts)
    have hstep : callStep t ⟨c, start⟩ = (0, ⟨c + 1, start⟩) :=
      callStep_in_window t start c hmem.2 (by simp at hlen; omega)
    have hrest := ih (c := c + 1) (by simp at hlen ⊢; omega)
      (fun u hu => hts u (List.mem_cons_of_mem t hu))
    simp [runCalls, hstep, hrest, List.replicate_succ]
    omega

/-- C2: `waitForRateLimit()` postcondition for every prior state: if elapsed
≥ W it resets count to 0 and windowStart to now and incurs no wait, whatever
the prior count; else if count < Q it returns immediately with the state
unchanged; else it suspends for exactly W - elapsed milliseconds and then
resets count to 0 and windowStart to the post-wait now. The operation has no
error condition: it is total and always yields a result state. -/
theorem waitForRateLimit_postcondition (s : RateState) (now : Int) :
    (now - s.windowStart ≥ RATE_LIMIT_WINDOW_MS →
      waitForRateLimit now s = (0, ⟨0, now⟩)) ∧
    (now - s.windowStart < RATE_LIMIT_WINDOW_MS → s.requestCount < RATE_LIMIT_REQUESTS →
      waitForRateLimit now s = (0, s)) ∧
    (now - s.windowStart < RATE_LIMIT_WINDOW_MS → s.requestCount ≥ RATE_LIMIT_REQUESTS →
      waitForRateLimit now s =
        (RATE_LIMIT_WINDOW_MS - (now - s.windowStart),
         ⟨0, now + (RATE_LIMIT_WINDOW_MS - (now - s.windowStart))⟩)) := by
  refine ⟨fun h1 => ?_, fun h1 h2 => ?_, fun h1 h2 => ?_⟩
  · unfold waitForRateLimit
    rw [if_pos (by omega)]
  · unfold waitForRateLimit
    rw [if_neg (by omega), if_neg (by omega)]
  · unfold waitForRateLimit
    rw [if_neg (by omega), if_pos (by omega)]

/-- Witness for `waitForRateLimit_postcondition`: concrete instances of all
three branches (rollover after a full window with a nonzero count, an
immediate return under quota, and a delayed call at the quota). -/
theorem waitForRateLimit_postcondition_witness :
    waitForRateLimit 20000 ⟨5, 0⟩ = (0, ⟨0, 20000⟩) ∧
    waitForRateLimit 400 ⟨5, 0⟩ = (0, ⟨5, 0⟩) ∧
    waitForRateLimit 400 ⟨100, 0⟩ = (9600, ⟨0, 10000⟩) := by
  refine ⟨(waitForRateLimit_postcondition ⟨5, 0⟩ 20000).1 (by decide),
    ?_, ?_⟩
  · have h := (waitForRateLimit_postcondition ⟨5, 0⟩ 400).2.1 (by decide) (by decide)
    simpa using h
  · have h := (waitForRateLimit_postcondition ⟨100, 0⟩ 400).2.2 (by decide) (by decide)
    simpa using h

/-- C1: for a sequential trace with Q = 100 and W = 10000 starting from a
fresh window at time `start`, in which each call runs `waitForRateLimit()`
and then `recordRequest()`: if at most Q calls are issued at times within
one window duration of `start`, every `waitForRateLimit()` returns
immediately (all delays are 0); and after exactly Q such calls, a further
call issued at elapsed time e < W is delayed by W - e (until the window
boundary `start + W`), and immediately after that call completes its
`recordRequest()` the counter reads 1. -/
theorem rate_limiter_quota_trace (ts : List Int) (start e : Int)
    (hlen : ts.length ≤ 100)
    (hts : ∀ t ∈ ts, start ≤ t ∧ t < start + 10000)
    (he0 : 0 ≤ e) (heW : e < 10000) :
    (runCalls ts ⟨0, start⟩).1 = List.replicate ts.length 0 ∧
    (ts.length = 100 →
      callStep (start + e) (runCalls ts ⟨0, start⟩).2 =
        (10000 - e, ⟨1, start + 10000⟩)) := by
  have hrun := runCalls_in_window ts start 0 (by simpa using hlen) hts
  constructor
  · rw [hrun]
  · intro hfull
    rw [hrun]
    simp only [hfull]
    unfold callStep waitForRateLimit recordRequest
    simp only
    rw [if_neg (by simp [RATE_LIMIT_WINDOW_MS]; omega),
      if_pos (by simp [RATE_LIMIT_REQUESTS])]
    simp [RATE_LIMIT_WINDOW_MS]

/-- Witness for `rate_limiter_quota_trace`: 100 calls fired in rapid
succession (all at the window-start instant 0) incur no delay, and the 101st
call at elapsed time 5000 is delayed by 5000 ms and leaves the counter at 1. -/
theorem rate_limiter_quota_trace_witness :
    (runCalls (List.replicate 100 0) ⟨0, 0⟩).1 = List.replicate 100 0 ∧
    callStep 5000 (runCalls (List.replicate 100 0) ⟨0, 0⟩).2 =
      (5000, ⟨1, 10000⟩) := by
  have h := rate_limiter_quota_trace (List.replicate 100 0) 0 5000
    (by simp) (by intro t ht; simp at ht; simp [ht]) (by norm_num) (by norm_num)
  refine ⟨h.1.trans (by simp), ?_⟩
  have h2 := h.2 (by simp)
  simpa using h2

/-- C4: `getStatus()` is a pure read: it leaves the stored state unchanged,
so any number of consecutive calls (no intervening `recordRequest()`) yields
the same result as one call; and when elapsed ≥ W it reports as if reset
(count = 0, remaining = limit) while the stored state is still untouched. -/
theorem getStatus_pure (s : RateState) (now : Int) :
    (getStatus now s).2 = s ∧
    getStatus now (getStatus now s).2 = getStatus now s ∧
    (now - s.windowStart ≥ RATE_LIMIT_WINDOW_MS →
      (getStatus now s).1 =
        ⟨0, RATE_LIMIT_REQUESTS, RATE_LIMIT_WINDOW_MS, (RATE_LIMIT_REQUESTS : Int)⟩) := by
  have hsnd : (getStatus now s).2 = s := by
    unfold getStatus
    simp only
    split <;> rfl
  refine ⟨hsnd, by rw [hsnd], fun h => ?_⟩
  unfold getStatus
  rw [if_pos (by omega)]

/-- Witness for `getStatus_pure`: at time 20000 with a window started at 0
and 7 requests recorded, the status reports as reset while the stored state
still holds count 7. -/
theorem getStatus_pure_witness :
    (getStatus 20000 ⟨7, 0⟩).2 = (⟨7, 0⟩ : RateState) ∧
    (getStatus 20000 ⟨7, 0⟩).1 = ⟨0, 100, 10000, 100⟩ := by
  have h := getStatus_pure ⟨7, 0⟩ 20000
  exact ⟨h.1, (h.2.2 (by decide)).trans rfl⟩

/-! ### String utilities

JavaScript `String.prototype.includes`, `startsWith` and `toLowerCase` are
modelled on the character list underlying a Lean `String`. -/

/-- Does `pat` occur as a prefix of `l`? -/
def listStarts : List Char → List Char → Bool
  | [], _ => true
  | _ :: _, [] => false
  | p :: ps, c :: cs => p == c && listStarts ps cs

/-- Does `pat` occur as a contiguous run anywhere in `l`? -/
def listHasRun (pat : List Char) : List Char → Bool
  | [] => listStarts pat []
  | c :: cs => listStarts pat (c :: cs) || listHasRun pat cs

/-- JavaScript `s.includes(pat)`: substring containment. -/
def strContains (s pat : String) : Bool :=
  listHasRun pat.data s.data

/-- JavaScript `s.startsWith(pat)`. -/
def strStarts (s pat : String) : Bool :=
  listStarts pat.data s.data

/-- JavaScript `s.toLowerCase()` (the sources only compare ASCII keywords). -/
def strLower (s : String) : String :=
  ⟨s.data.map Char.toLower⟩

lemma listStarts_append (pat l r : List Char) (h : listStarts pat l = true) :
    listStarts pat (l ++ r) = true := by
  induction pat generalizing l with
  | nil => rfl
  | cons p ps ih =>
    cases l with
    | nil => exact absurd h (by simp [listStarts])
    | cons c cs =>
      simp only [listStarts, Bool.and_eq_true] at h ⊢
      exact ⟨h.1, ih cs h.2⟩

lemma listHasRun_append (pat l r : List Char) (h : listHasRun pat l = true) :
    listHasRun pat (l ++ r) = true := by
  induction l with
  | nil =>
    cases r with
    | nil => simpa using h
    | cons c cs =>
      simp only [listHasRun] at h
      simp only [List.nil_append, listHasRun, Bool.or_eq_true]
      exact Or.inl (listStarts_append pat [] _ h)
  | cons c cs ih =>
    simp only [listHasRun, Bool.or_eq_true] at h
    simp only [List.cons_append, listHasRun, Bool.or_eq_true]
    cases h with
    | inl h => exact Or.inl (listStarts_append pat (c :: cs) r h)
    | inr h => exact Or.inr (ih h)

/-- Substring containment survives appending on the right. -/
lemma strContains_append_right (s t pat : String)
    (h : strContains s pat = true) : strContains (s ++ t) pat = true := by
  cases s with
  | mk sd =>
    cases t with
    | mk td => exact listHasRun_append pat.data sd td h

/-! ### JSON values and the error classifier (`src/utils/errors.ts`) -/

/-- A JSON value, as carried in `error.response.data`. Numbers are modelled
as integers (no claim inspects numeric payloads). -/
inductive Json where
  | null
  | bool (b : Bool)
  | num (n : Int)
  | str (s : String)
  | arr (elems : List Json)
  | obj (fields : List (String × Json))
deriving Repr

/-- JavaScript property lookup on a plain object (keys from parsed JSON are
unique, so first match suffices). -/
def jsonGet (k : String) : List (String × Json) → Option Json
  | [] => none
  | (k', v) :: fs => if k' == k then some v else jsonGet k fs

mutual

/-- `JSON.stringify` on the modelled JSON values (no pretty-printing, the
form used for the `errors[]`-entry fallback). -/
def jsonStringify : Json → String
  | .null => "null"
  | .bool true => "true"
  | .bool false => "false"
  | .num n => toString n
  | .str s => "\x22" ++ s ++ "\x22"
  | .arr es => "[" ++ String.intercalate "," (jsonStringifyList es) ++ "]"
  | .obj fs => "\x7b" ++ String.intercalate "," (jsonStringifyFields fs) ++ "\x7d"

def jsonStringifyList : List Json → List String
  | [] => []
  | j :: js => jsonStringify j :: jsonStringifyList js

def jsonStringifyFields : List (String × Json) → List String
  | [] => []
  | (k, j) :: fs =>
    ("\x22" ++ k ++ "\x22:" ++ jsonStringify j) :: jsonStringifyFields fs

end

/-- The per-entry mapper inside `extractErrorMessage`: an `errors[]` element
contributes its string `detail`, else its string `title`, else its
`JSON.stringify` image. (In JavaScript a non-object entry also falls through
to `JSON.stringify`, which coincides with this model.) -/
def errEntryMessage (err : Json) : String :=
  match err with
  | .obj efields =>
    match jsonGet "detail" efields with
    | some (.str d) => d
    | _ =>
      match jsonGet "title" efields with
      | some (.str t) => t
      | _ => jsonStringify err
  | _ => jsonStringify err

/-- The fallback of `extractErrorMessage` for object data without a usable
`errors[]` array: a string `message` field, else a string `error` field,
else the constant unknown-error text. -/
def objFallbackMessage (fields : List (String × Json)) : String :=
  match jsonGet "message" fields with
  | some (.str m) => m
  | _ =>
    match jsonGet "error" fields with
    | some (.str e) => e
    | _ => "Unknown error occurred."

/-- `extractErrorMessage(data)`: a string passes through; an object with a
non-empty `errors[]` array joins the per-entry messages with "; "; other
objects fall back to `message`/`error` string fields; everything else yields
"Unknown error occurred.". -/
def extractErrorMessage (data : Json) : String :=
  match data with
  | .str s => s
  | .obj fields =>
    match jsonGet "errors" fields with
    | some (.arr errs) =>
      if errs.length > 0 then
        String.intercalate "; " (errs.map errEntryMessage)
      else
        objFallbackMessage fields
    | some _ => objFallbackMessage fields
    | none => objFallbackMessage fields
  | _ => "Unknown error occurred."

/-- `formatBadRequestError(data)`. -/
def formatBadRequestError (data : Json) : String :=
  "Error: Bad request. " ++ extractErrorMessage data

/-- `formatNotFoundError(data)`: content-sniffed, the "project" check comes
before the "task" check. -/
def formatNotFoundError (data : Json) : String :=
  let message := extractErrorMessage data
  if strContains (strLower message) "project" then
    "Error: Project not found. " ++ message ++
      " Use productive_list_projects to see available projects."
  else if strContains (strLower message) "task" then
    "Error: Task not found. " ++ message
  else
    "Error: Resource not found. " ++ message

/-- `formatValidationError(data)`: content-sniffed for "title", "date",
"project" keywords. -/
def formatValidationError (data : Json) : String :=
  let message := extractErrorMessage data
  if strContains (strLower message) "title" then
    "Error: Invalid title. " ++ message ++ " Task titles must be 1-200 characters."
  else if strContains (strLower message) "date" then
    "Error: Invalid date format. " ++ message ++
      " Use ISO 8601 format (e.g., \x222025-11-20\x22)."
  else if strContains (strLower message) "project" then
    "Error: Invalid project. " ++ message ++
      " Use productive_list_projects to see available projects."
  else
    "Error: Validation failed. " ++ message

/-- The three shapes of an `AxiosError` distinguished by `handleAxiosError`:
an HTTP error response, a dispatched request with no response, and a
request-setup failure. -/
inductive AxiosErr where
  | response (status : Nat) (data : Json)
  | noResponse
  | setup (message : String)
deriving Repr

/-- `handleAxiosError(error)`: the status switch on the response branch (the
`console.error` diagnostics are side effects outside the returned value). -/
def handleAxiosError : AxiosErr → String
  | .response status data =>
    if status == 400 then formatBadRequestError data
    else if status == 401 then
      "Error: Authentication failed. Please check your PRODUCTIVE_API_TOKEN environment variable."
    else if status == 403 then
      "Error: Access forbidden. Please check your PRODUCTIVE_ORG_ID and API token permissions."
    else if status == 404 then formatNotFoundError data
    else if status == 422 then formatValidationError data
    else if status == 429 then
      "Error: Rate limit exceeded (100 requests/10s). Please wait before retrying."
    else if status == 500 || status == 502 || status == 503 then
      "Error: Productive.io server error. Please try again later."
    else
      "Error: API request failed with status " ++ toString status ++ ". " ++
        extractErrorMessage data
  | .noResponse =>
    "Error: No response from Productive.io API. Please check your internet connection."
  | .setup message =>
    "Error: Request setup failed. " ++ message

/-- C5, counterexample: the claim maps every status in 500–599 to the
"server error, retry later" message, but the switch only handles 500, 502
and 503: at status 504 (with an empty-object body) the classifier produces
the generic "request failed with status 504" message, which does not even
contain "server error". -/
theorem five_xx_range_counterexample :
    handleAxiosError (.response 504 (Json.obj [])) =
      "Error: API request failed with status 504. Unknown error occurred." ∧
    strContains (handleAxiosError (.response 504 (Json.obj []))) "server error" = false := by
  constructor <;> decide

/-- C5, amended: with a generic empty-object body, each documented status
maps to a message containing its kind-specific keyword (400 bad request,
401 authentication, 403 access forbidden, 404 not found, 422 validation,
429 the static rate-limit message naming the 100 requests/10s quota);
statuses 500, 502 and 503 — and only those three of the 5xx range — map to
the "server error, retry later" message (501 already falls through to the
generic branch); any other status such as 418 yields the generic message
naming the status. -/
theorem error_classification_keywords :
    strContains (handleAxiosError (.response 400 (Json.obj []))) "Bad request" = true ∧
    strContains (handleAxiosError (.response 401 (Json.obj []))) "Authentication" = true ∧
    strContains (handleAxiosError (.response 403 (Json.obj []))) "Access forbidden" = true ∧
    strContains (handleAxiosError (.response 404 (Json.obj []))) "not found" = true ∧
    strContains (handleAxiosError (.response 422 (Json.obj []))) "Validation" = true ∧
    strContains (handleAxiosError (.response 429 (Json.obj [])))
      "Rate limit exceeded (100 requests/10s)" = true ∧
    handleAxiosError (.response 500 (Json.obj [])) =
      "Error: Productive.io server error. Please try again later." ∧
    handleAxiosError (.response 502 (Json.obj [])) =
      "Error: Productive.io server error. Please try again later." ∧
    handleAxiosError (.response 503 (Json.obj [])) =
      "Error: Productive.io server error. Please try again later." ∧
    handleAxiosError (.response 501 (Json.obj [])) =
      "Error: API request failed with status 501. Unknown error occurred." ∧
    strContains (handleAxiosError (.response 418 (Json.obj [])))
      "request failed with status 418" = true := by
  refine ⟨?_, ?_, ?_, ?_, ?_, ?_, ?_, ?_, ?_, ?_, ?_⟩ <;> decide

/-- C6, counterexample: for the JSON:API body
`{errors:[{detail:"Title is required"}]}` the 422 classifier takes the
"title" sniff branch, producing the "Invalid title" variant; the produced
message does not contain the word "Validation" (the claim requires it to). -/
theorem validation_detail_counterexample :
    strContains
      (handleAxiosError (.response 422
        (Json.obj [("errors", Json.arr [Json.obj [("detail", Json.str "Title is required")]])])))
      "Validation" = false := by
  decide

/-- C6, amended: for the body `{errors:[{detail:"Title is required"}]}` the
422 classifier produces the "Invalid title" variant, whose message contains
"Title" and the character-limit hint (but not the word "Validation", since
the title sniff fires before the generic "Validation failed" fallback);
detail extraction prefers the `errors[]` array joining `detail`/`title`
fields with "; " (stringifying other entries), over a top-level `message` or
`error` string, with final fallback "Unknown error occurred.". -/
theorem validation_detail_roundtrip :
    handleAxiosError (.response 422
        (Json.obj [("errors", Json.arr [Json.obj [("detail", Json.str "Title is required")]])])) =
      "Error: Invalid title. Title is required Task titles must be 1-200 characters." ∧
    strContains
      (handleAxiosError (.response 422
        (Json.obj [("errors", Json.arr [Json.obj [("detail", Json.str "Title is required")]])])))
      "Title" = true ∧
    strContains
      (handleAxiosError (.response 422
        (Json.obj [("errors", Json.arr [Json.obj [("detail", Json.str "Title is required")]])])))
      "Task titles must be 1-200 characters." = true ∧
    extractErrorMessage
      (Json.obj [("errors", Json.arr
        [Json.obj [("detail", Json.str "a")],
         Json.obj [("title", Json.str "b")],
         Json.str "c"])]) = "a; b; \x22c\x22" ∧
    extractErrorMessage
      (Json.obj [("errors", Json.arr [Json.obj [("detail", Json.str "d")]]),
                 ("message", Json.str "m")]) = "d" ∧
    extractErrorMessage (Json.obj [("errors", Json.arr []), ("message", Json.str "m")]) = "m" ∧
    extractErrorMessage (Json.obj [("message", Json.str "m")]) = "m" ∧
    extractErrorMessage (Json.obj [("error", Json.str "e")]) = "e" ∧
    extractErrorMessage (Json.obj []) = "Unknown error occurred." := by
  refine ⟨?_, ?_, ?_, ?_, ?_, ?_, ?_, ?_, ?_⟩ <;> decide

/-- C7, counterexample: an HTTP 404 whose extracted detail contains the word
"task" but also the word "project" ("No task for this project") takes the
project branch, and the output does not contain "Task not found" (the claim
requires every detail containing "task" to yield it). -/
theorem notfound_task_counterexample :
    strContains
      (strLower (extractErrorMessage (Json.obj [("message", Json.str "No task for this project")])))
      "task" = true ∧
    strContains
      (handleAxiosError (.response 404 (Json.obj [("message", Json.str "No task for this project")])))
      "Task not found" = false := by
  constructor <;> decide

/-- C7, amended: for every HTTP 404 body whose extracted detail contains the
word "task" (case-insensitively) and does not contain "project", the output
is the "Task not found" variant, whose message contains "Task not found";
when the detail mentions neither "project" nor "task", the output is the
generic "Resource not found" variant. -/
theorem notfound_task_spec (data : Json)
    (hproj : strContains (strLower (extractErrorMessage data)) "project" = false) :
    (strContains (strLower (extractErrorMessage data)) "task" = true →
      handleAxiosError (.response 404 data) =
        "Error: Task not found. " ++ extractErrorMessage data ∧
      strContains (handleAxiosError (.response 404 data)) "Task not found" = true) ∧
    (strContains (strLower (extractErrorMessage data)) "task" = false →
      handleAxiosError (.response 404 data) =
        "Error: Resource not found. " ++ extractErrorMessage data) := by
  have h404 : handleAxiosError (.response 404 data) = formatNotFoundError data := by
    simp [handleAxiosError]
  constructor
  · intro htask
    have heq : handleAxiosError (.response 404 data) =
        "Error: Task not found. " ++ extractErrorMessage data := by
      rw [h404]
      unfold formatNotFoundError
      simp only [hproj, htask]
      simp
    refine ⟨heq, ?_⟩
    rw [heq]
    exact strContains_append_right _ _ _ (by decide)
  · intro htask
    rw [h404]
    unfold formatNotFoundError
    simp only [hproj, htask]
    simp

/-- Witness for `notfound_task_spec`: the body `{message:"task missing"}`
satisfies the hypotheses and yields the "Task not found" message. -/
theorem notfound_task_spec_witness :
    handleAxiosError (.response 404 (Json.obj [("message", Json.str "task missing")])) =
      "Error: Task not found. task missing" := by
  have h := (notfound_task_spec (Json.obj [("message", Json.str "task missing")])
    (by decide)).1 (by decide)
  exact h.1.trans (by decide)

/-- C10: in the 404 classifier the "project" check precedes the "task"
check: for every body whose extracted detail contains "project"
(case-insensitively) — in particular when it also contains "task" — the
output is the "Project not found" message and does not start with the
"Task not found" message. -/
theorem notfound_project_precedence (data : Json)
    (hproj : strContains (strLower (extractErrorMessage data)) "project" = true)
    (htask : strContains (strLower (extractErrorMessage data)) "task" = true) :
    handleAxiosError (.response 404 data) =
      "Error: Project not found. " ++ extractErrorMessage data ++
        " Use productive_list_projects to see available projects." ∧
    strStarts (handleAxiosError (.response 404 data)) "Error: Task not found." = false := by
  have h404 : handleAxiosError (.response 404 data) = formatNotFoundError data := by
    simp [handleAxiosError]
  have heq : handleAxiosError (.response 404 data) =
      "Error: Project not found. " ++ extractErrorMessage data ++
        " Use productive_list_projects to see available projects." := by
    rw [h404]
    unfold formatNotFoundError
    simp only [hproj]
    simp
  refine ⟨heq, ?_⟩
  rw [heq]
  rfl

/-- Witness for `notfound_project_precedence`: the detail
"No task for this project" contains both words and yields the project
message. -/
theorem notfound_project_precedence_witness :
    handleAxiosError (.response 404 (Json.obj [("message", Json.str "No task for this project")])) =
      "Error: Project not found. No task for this project Use productive_list_projects to see available projects." := by
  have h := notfound_project_precedence (Json.obj [("message", Json.str "No task for this project")])
    (by decide) (by decide)
  exact h.1.trans (by decide)

/-! ### The gateway request pipeline (`src/client.ts`) -/

/-- The `ProductiveAPIError` class: a message, an optional HTTP status code
(`error.response?.status`) and the original error as cause. The
environment-validation error carries no status and no cause. -/
structure ProductiveAPIErrorT where
  message : String
  statusCode : Option Nat
  originalError : Option AxiosErr
deriving Repr

/-- The outcome of the dispatched `this.axios.request(config)` call: a
successful response body, a rejection with an `AxiosError`, or a rejection
with a non-Axios exception (modelled opaquely by a tag). -/
inductive HttpOutcome where
  | success (body : Json)
  | axiosFailure (e : AxiosErr)
  | otherFailure (tag : String)
deriving Repr

/-- The result of `ProductiveClient.request`: the response body, a thrown
`ProductiveAPIError`, or a non-Axios exception rethrown unchanged. -/
inductive ReqResult where
  | ok (body : Json)
  | apiError (e : ProductiveAPIErrorT)
  | rethrown (tag : String)
deriving Repr

/-- `error.response?.status` of an `AxiosError`. -/
def axiosErrStatus : AxiosErr → Option Nat
  | .response s _ => some s
  | .noResponse => none
  | .setup _ => none

/-- `ProductiveClient.request` as seen by the rate limiter and the error
path: it awaits `waitForRateLimit()`, dispatches the call (outcome given as
`outcome`), calls `recordRequest()` only on the successful path, wraps an
`AxiosError` rejection into a `ProductiveAPIError` via `handleAxiosError`,
and rethrows any other exception unchanged. Returns the result, the final
rate-limiter state and the delay incurred. -/
def clientRequest (now : Int) (s : RateState) (outcome : HttpOutcome) :
    ReqResult × RateState × Int :=
  let r := waitForRateLimit now s
  match outcome with
  | .success body => (.ok body, recordRequest r.2, r.1)
  | .axiosFailure e =>
    (.apiError ⟨handleAxiosError e, axiosErrStatus e, some e⟩, r.2, r.1)
  | .otherFailure tag => (.rethrown tag, r.2, r.1)

/-- C3, counterexample: a call from the fresh state whose dispatch fails
with an HTTP 500 `AxiosError` ends in a classified error and leaves the
counter at 0 — the claim that the count is incremented by 1 even when the
call ends in a classified error predicts 1. -/
theorem recordRequest_on_failure_counterexample :
    (clientRequest 0 ⟨0, 0⟩ (.axiosFailure (.response 500 Json.null))).2.1.requestCount = 0 ∧
    (clientRequest 0 ⟨0, 0⟩ (.axiosFailure (.response 500 Json.null))).2.1.requestCount ≠
      (0 : Nat) + 1 := by
  constructor <;> decide

/-- C3, amended: `recordRequest()` is invoked exactly once per successful
outbound call — after a successful dispatch the count exceeds the post-wait
count by 1 — while a call that ends in a classified `AxiosError` or in any
other exception leaves the count at the post-wait value: the quota does not
charge failed attempts. -/
theorem recordRequest_once_per_success (now : Int) (s : RateState)
    (body : Json) (e : AxiosErr) (tag : String) :
    (clientRequest now s (.success body)).2.1.requestCount =
      (waitForRateLimit now s).2.requestCount + 1 ∧
    (clientRequest now s (.axiosFailure e)).2.1.requestCount =
      (waitForRateLimit now s).2.requestCount ∧
    (clientRequest now s (.otherFailure tag)).2.1.requestCount =
      (waitForRateLimit now s).2.requestCount := by
  exact ⟨rfl, rfl, rfl⟩

/-- C9: `request()` wraps only Axios failures: an `AxiosError` rejection is
rethrown as the classified `ProductiveAPIError` carrying the classified
message, the optional response status and the original error as cause,
while any non-Axios exception propagates unchanged and unclassified; in
both failure cases the rate-limit count is not recorded (the state is
exactly the post-wait state). -/
theorem request_wraps_only_axios_errors (now : Int) (s : RateState)
    (e : AxiosErr) (tag : String) :
    clientRequest now s (.axiosFailure e) =
      (.apiError ⟨handleAxiosError e, axiosErrStatus e, some e⟩,
        (waitForRateLimit now s).2, (waitForRateLimit now s).1) ∧
    clientRequest now s (.otherFailure tag) =
      (.rethrown tag, (waitForRateLimit now s).2, (waitForRateLimit now s).1) := by
  exact ⟨rfl, rfl⟩

/-! ### Environment validation and startup (`errors.ts` / server entry) -/

/-- JavaScript truthiness of `process.env[varName]`: an unset variable
(`undefined`) and the empty string are falsy. -/
def envTruthy : Option String → Bool
  | none => false
  | some s => !(s == "")

/-- `validateEnvironment()`: filters the required variable names whose value
is falsy and throws a `ProductiveAPIError` naming them, joined with ", ". -/
def validateEnvironment (env : String → Option String) :
    Except ProductiveAPIErrorT Unit :=
  let required := ["PRODUCTIVE_API_TOKEN", "PRODUCTIVE_ORG_ID"]
  let missing := required.filter (fun varName => !envTruthy (env varName))
  if missing.length > 0 then
    .error ⟨"Missing required environment variables: " ++
      String.intercalate ", " missing ++
      ". Please set these in your .env file or environment.", none, none⟩
  else
    .ok ()

/-- The observable outcome of the server entry point up to client
construction: either the process exits with code 1 after logging the
validation error message (no client is constructed and no network call is
attempted), or it proceeds to construct the `ProductiveClient` from the two
environment values. -/
inductive StartupOutcome where
  | exited (loggedMessage : String)
  | clientConstructed (apiToken orgId : String)
deriving Repr, DecidableEq

/-- The startup sequence of the server entry point: `validateEnvironment()`
inside try/catch — on a thrown error the message is logged and
`process.exit(1)` runs before the client is constructed; otherwise the
client is constructed from `process.env.PRODUCTIVE_API_TOKEN!` and
`process.env.PRODUCTIVE_ORG_ID!`. -/
def startup (env : String → Option String) : StartupOutcome :=
  match validateEnvironment env with
  | .error e => .exited e.message
  | .ok () =>
    .clientConstructed ((env "PRODUCTIVE_API_TOKEN").getD "")
      ((env "PRODUCTIVE_ORG_ID").getD "")

/-- Is an `Except` value a normal return? -/
def exceptOk {ε α : Type} : Except ε α → Bool
  | .ok _ => true
  | .error _ => false

/-- `validateEnvironment` and the startup outcome are determined by the
truthiness of the two required variables. -/
lemma startup_characterization (env : String → Option String) :
    (envTruthy (env "PRODUCTIVE_API_TOKEN") = true →
      envTruthy (env "PRODUCTIVE_ORG_ID") = true →
      validateEnvironment env = .ok () ∧
      startup env = .clientConstructed ((env "PRODUCTIVE_API_TOKEN").getD "")
        ((env "PRODUCTIVE_ORG_ID").getD "")) ∧
    (envTruthy (env "PRODUCTIVE_API_TOKEN") = false →
      envTruthy (env "PRODUCTIVE_ORG_ID") = true →
      startup env = .exited ("Missing required environment variables: " ++
        String.intercalate ", " ["PRODUCTIVE_API_TOKEN"] ++
        ". Please set these in your .env file or environment.")) ∧
    (envTruthy (env "PRODUCTIVE_API_TOKEN") = true →
      envTruthy (env "PRODUCTIVE_ORG_ID") = false →
      startup env = .exited ("Missing required environment variables: " ++
        String.intercalate ", " ["PRODUCTIVE_ORG_ID"] ++
        ". Please set these in your .env file or environment.")) ∧
    (envTruthy (env "PRODUCTIVE_API_TOKEN") = false →
      envTruthy (env "PRODUCTIVE_ORG_ID") = false →
      startup env = .exited ("Missing required environment variables: " ++
        String.intercalate ", " ["PRODUCTIVE_API_TOKEN", "PRODUCTIVE_ORG_ID"] ++
        ". Please set these in your .env file or environment.")) := by
  refine ⟨fun h1 h2 => ?_, fun h1 h2 => ?_, fun h1 h2 => ?_, fun h1 h2 => ?_⟩ <;>
    unfold startup validateEnvironment <;>
    simp [List.filter, h1, h2]

/-- C8, counterexample: with the token variable present but set to the empty
string (and a well-formed organization id), both variables are present, yet
validation does not return normally and startup exits, because the source
tests JavaScript truthiness (`!process.env[varName]`), which treats the
empty string like an unset variable. -/
theorem startup_present_empty_counterexample :
    exceptOk (validateEnvironment
      (fun v => if v == "PRODUCTIVE_API_TOKEN" then some "" else
        if v == "PRODUCTIVE_ORG_ID" then some "42" else none)) = false ∧
    startup
      (fun v => if v == "PRODUCTIVE_API_TOKEN" then some "" else
        if v == "PRODUCTIVE_ORG_ID" then some "42" else none) =
      .exited "Missing required environment variables: PRODUCTIVE_API_TOKEN. Please set these in your .env file or environment." := by
  constructor <;> decide

/-- C8, amended: if either required variable is absent (or empty, which the
truthiness test conflates with absence), validation fails with an error
whose message names that variable, and startup exits before constructing
the client (the outcome is `exited`, carrying no client and attempting no
network call); if both are present and non-empty, validation returns
normally and startup constructs the client from the two values. -/
theorem startup_env_validation (env : String → Option String) :
    (envTruthy (env "PRODUCTIVE_API_TOKEN") = false →
      ∃ m, startup env = .exited m ∧ strContains m "PRODUCTIVE_API_TOKEN" = true) ∧
    (envTruthy (env "PRODUCTIVE_ORG_ID") = false →
      ∃ m, startup env = .exited m ∧ strContains m "PRODUCTIVE_ORG_ID" = true) ∧
    (envTruthy (env "PRODUCTIVE_API_TOKEN") = true →
      envTruthy (env "PRODUCTIVE_ORG_ID") = true →
      validateEnvironment env = .ok () ∧
      startup env = .clientConstructed ((env "PRODUCTIVE_API_TOKEN").getD "")
        ((env "PRODUCTIVE_ORG_ID").getD "")) := by
  have hc := startup_characterization env
  refine ⟨fun h1 => ?_, fun h2 => ?_, fun h1 h2 => hc.1 h1 h2⟩
  · by_cases h2 : envTruthy (env "PRODUCTIVE_ORG_ID") = true
    · exact ⟨_, hc.2.1 h1 h2, by decide⟩
    · simp only [Bool.not_eq_true] at h2
      exact ⟨_, hc.2.2.2 h1 h2, by decide⟩
  · by_cases h1 : envTruthy (env "PRODUCTIVE_API_TOKEN") = true
    · exact ⟨_, hc.2.2.1 h1 h2, by decide⟩
    · simp only [Bool.not_eq_true] at h1
      exact ⟨_, hc.2.2.2 h1 h2, by decide⟩

/-- Witness for `startup_env_validation`: with no variables set, startup
exits with a message naming the token variable; with both set non-empty,
the client is constructed from them. -/
theorem startup_env_validation_witness :
    (∃ m, startup (fun _ => none) = .exited m ∧
      strContains m "PRODUCTIVE_API_TOKEN" = true) ∧
    startup (fun v => if v == "PRODUCTIVE_API_TOKEN" then some "tok" else some "42") =
      .clientConstructed "tok" "42" := by
  refine ⟨(startup_env_validation (fun _ => none)).1 (by decide), ?_⟩
  have h := ((startup_env_validation
    (fun v => if v == "PRODUCTIVE_API_TOKEN" then some "tok" else some "42")).2.2
    (by decide) (by decide)).2
  simpa using h

end ProductiveMCP
